import Mathlib

/-!
warpd: the activation state machine and its dispatch (src/warpd.c).

A shallow embedding of `toggle_drag`, `activation_loop`, `normalize_dimensions`,
`oneshot_loop`, `main_loop`, `lock`, `daemonize` and `main`.

* The program's globals that the loop touches (`dragging`) live in `State`,
  together with the state of everything outside this file (`world`) and two
  observation logs: the mode collaborators called so far (`calls`) and the
  pointer actions emitted by `toggle_drag` (`pointer`).
* The mode collaborators (`normal_mode`, `hint_mode`, `grid_mode`,
  `screen_selection_mode`, `input_wait`) are external code.  Each is an
  interaction tree `Act`: it may read and change the outside world and may call
  the exported `toggle_drag` any number of times before it returns its result.
  `dragging` is `static`, so a collaborator reaches it only through
  `toggle_drag`.
* `while (1)` is modelled by a step function and a fuel-indexed iteration.
* `main` is the sequence of calls it makes, given the first argument and the
  answers of the operating system (`Os`); `lock` and `daemonize` say whether
  they end the process and with which value.
-/

namespace Warpd

/-! Data model -/

/-- Calls of the external mode collaborators, with the argument passed. -/
inductive Call (ε : Type) where
  | normal_mode (start_ev : Option ε)
  | hint_mode
  | grid_mode
  | screen_selection_mode
  | input_wait
  deriving DecidableEq, Repr

/-- Pointer actions emitted through `mouse_down` / `mouse_up`. -/
inductive Pointer where
  | mouse_down (btn : Int)
  | mouse_up (btn : Int)
  deriving DecidableEq, Repr

/-- Program state: the static `dragging` flag, the outside world, and the
observation logs. -/
structure State (ε W : Type) where
  dragging : Int
  world : W
  calls : List (Call ε)
  pointer : List Pointer
  deriving DecidableEq, Repr

/-- Behaviour of an external collaborator returning an `α`: it returns, or
calls `toggle_drag` and goes on, or acts on the outside world and goes on
depending on what it saw there. -/
inductive Act (W : Type) (α : Type) where
  | ret (a : α)
  | toggle_drag (k : Act W α)
  | world (f : W → W) (k : W → Act W α)

/-- The fields of `struct cfg` read in this file: bindings are strings
(`const char *`), tunables are `int`. -/
structure Cfg where
  hint : String
  grid : String
  screen : String
  exit : String
  grid_exit : String
  activation_key : String
  hint_activation_key : String
  grid_activation_key : String
  hint_oneshot_key : String
  screen_activation_key : String
  speed : Int
  cursor_size : Int
  grid_size : Int
  grid_border_size : Int
  deriving DecidableEq, Repr

/-- The `MODE_*` constants of `warpd.h` (not part of this file), taken as
parameters.  They are the labels of one `switch`, hence pairwise distinct. -/
structure Modes where
  MODE_NORMAL : Int
  MODE_HINT : Int
  MODE_GRID : Int
  MODE_SCREEN_SELECTION : Int
  distinct : List.Nodup (MODE_NORMAL :: MODE_HINT :: MODE_GRID :: MODE_SCREEN_SELECTION :: [])

/-- Everything the file calls but does not define: the input-equality test,
the mode collaborators, the input wait and the pointer control. -/
structure Platform (ε W : Type) where
  input_event_eq : Option ε → String → Bool
  input_parse_string : String → ε
  input_wait : List ε → Act W (Option ε)
  normal_mode : Option ε → Act W (Option ε)
  hint_mode : Act W Int
  grid_mode : Act W (Option ε)
  screen_selection_mode : Act W Unit
  mouse_down : Int → W → W
  mouse_up : Int → W → W

variable {ε W : Type}

/-! `toggle_drag` -/

/-- C's `!x` on an `int`. -/
def lnot (x : Int) : Int := if x = 0 then 1 else 0

/-- `mouse_down(btn)`: acts on the world, logged. -/
def mouse_down (P : Platform ε W) (btn : Int) (s : State ε W) : State ε W :=
  { s with world := P.mouse_down btn s.world, pointer := s.pointer ++ [Pointer.mouse_down btn] }

/-- `mouse_up(btn)`: acts on the world, logged. -/
def mouse_up (P : Platform ε W) (btn : Int) (s : State ε W) : State ε W :=
  { s with world := P.mouse_up btn s.world, pointer := s.pointer ++ [Pointer.mouse_up btn] }

/-- `toggle_drag()`: flip `dragging`, then press or release button 1. -/
def toggle_drag (P : Platform ε W) (s : State ε W) : State ε W :=
  let s1 := { s with dragging := lnot s.dragging }
  if s1.dragging ≠ 0 then mouse_down P 1 s1 else mouse_up P 1 s1

/-- Run a collaborator on the program state. -/
def Act.run {α : Type} (P : Platform ε W) : Act W α → State ε W → α × State ε W
  | .ret a, s => (a, s)
  | .toggle_drag k, s => k.run P (Warpd.toggle_drag P s)
  | .world f k, s => (k s.world).run P { s with world := f s.world }

/-- Record a collaborator call in the log. -/
def State.call (s : State ε W) (c : Call ε) : State ε W :=
  { s with calls := s.calls ++ [c] }

/-- The call `normal_mode(ev)`: logged, then run. -/
def normal_mode (P : Platform ε W) (ev : Option ε) (s : State ε W) : Option ε × State ε W :=
  (P.normal_mode ev).run P (s.call (Call.normal_mode ev))

/-- The call `hint_mode()`: logged, then run. -/
def hint_mode (P : Platform ε W) (s : State ε W) : Int × State ε W :=
  P.hint_mode.run P (s.call Call.hint_mode)

/-- The call `grid_mode()`: logged, then run. -/
def grid_mode (P : Platform ε W) (s : State ε W) : Option ε × State ε W :=
  P.grid_mode.run P (s.call Call.grid_mode)

/-- The call `screen_selection_mode()`: logged, then run. -/
def screen_selection_mode (P : Platform ε W) (s : State ε W) : State ε W :=
  (P.screen_selection_mode.run P (s.call Call.screen_selection_mode)).2

/-- The call `input_wait(events, n)`: logged, then run. -/
def input_wait (P : Platform ε W) (events : List ε) (s : State ε W) : Option ε × State ε W :=
  (P.input_wait events).run P (s.call Call.input_wait)

/-! `activation_loop` -/

/-- Where the loop stands after some iterations: still in the `while (1)` with
the locals `mode` and `ev`, or returned to the caller. -/
inductive Outcome (ε W : Type) where
  | running (mode : Int) (ev : Option ε) (s : State ε W)
  | returned (s : State ε W)
  deriving DecidableEq, Repr

/-- The program state held by an outcome. -/
def Outcome.state : Outcome ε W → State ε W
  | .running _ _ s => s
  | .returned s => s

/-- Whether the loop has returned. -/
def Outcome.isReturned : Outcome ε W → Bool
  | .running _ _ _ => false
  | .returned _ => true

/-- The code at the `exit:` label: `if (dragging) toggle_drag(); return;`. -/
def exit_path (P : Platform ε W) (s : State ε W) : State ε W :=
  if s.dragging ≠ 0 then toggle_drag P s else s

/-- One iteration of the `while (1)` of `activation_loop`: the `switch (mode)`. -/
def activation_step (M : Modes) (P : Platform ε W) (cfg : Cfg)
    (mode : Int) (ev : Option ε) (s : State ε W) : Outcome ε W :=
  if mode = M.MODE_NORMAL then
    let r := normal_mode P ev s
    let ev := r.1
    if P.input_event_eq ev cfg.hint then .running M.MODE_HINT ev r.2
    else if P.input_event_eq ev cfg.grid then .running M.MODE_GRID ev r.2
    else if P.input_event_eq ev cfg.screen then .running M.MODE_SCREEN_SELECTION ev r.2
    else if P.input_event_eq ev cfg.exit || ev.isNone then .returned (exit_path P r.2)
    else .running mode ev r.2
  else if mode = M.MODE_HINT then
    let r := hint_mode P s
    if r.1 < 0 then .returned (exit_path P r.2)
    else .running M.MODE_NORMAL none r.2
  else if mode = M.MODE_GRID then
    let r := grid_mode P s
    let ev := if P.input_event_eq r.1 cfg.grid_exit then none else r.1
    .running M.MODE_NORMAL ev r.2
  else if mode = M.MODE_SCREEN_SELECTION then
    .running M.MODE_NORMAL ev (screen_selection_mode P s)
  else .running mode ev s

/-- At most `n` iterations of the `while (1)`. -/
def activation_iter (M : Modes) (P : Platform ε W) (cfg : Cfg) :
    Nat → Outcome ε W → Outcome ε W
  | 0, o => o
  | n + 1, .running mode ev s => activation_iter M P cfg n (activation_step M P cfg mode ev s)
  | _ + 1, .returned s => .returned s

/-- The state in which the loop is entered: `ev = NULL; dragging = 0;`. -/
def activation_init (mode : Int) (s : State ε W) : Outcome ε W :=
  .running mode none { s with dragging := 0 }

/-- `activation_loop(mode)`: `some s'` when the loop returns within `fuel`
iterations leaving the program in state `s'`. -/
def activation_loop (M : Modes) (P : Platform ε W) (cfg : Cfg) (fuel : Nat)
    (mode : Int) (s : State ε W) : Option (State ε W) :=
  match activation_iter M P cfg fuel (activation_init mode s) with
  | .returned s' => some s'
  | .running _ _ _ => none

/-! `normalize_dimensions` -/

/-- `normalize_dimensions()`, with `sh` the screen height delivered by
`screen_get_dimensions`.  C's `/` on `int` truncates toward zero. -/
def normalize_dimensions (cfg : Cfg) (sh : Int) : Cfg :=
  { cfg with
    speed := (cfg.speed * sh).tdiv 1080
    cursor_size := (cfg.cursor_size * sh).tdiv 1080
    grid_size := (cfg.grid_size * sh).tdiv 1080
    grid_border_size := (cfg.grid_border_size * sh).tdiv 1080 }

/-! `main_loop` -/

/-- The `activation_events` array of `main_loop`. -/
def activation_events (P : Platform ε W) (cfg : Cfg) : List ε :=
  [P.input_parse_string cfg.activation_key,
   P.input_parse_string cfg.hint_activation_key,
   P.input_parse_string cfg.grid_activation_key,
   P.input_parse_string cfg.hint_oneshot_key,
   P.input_parse_string cfg.screen_activation_key]

/-- The if-chain of `main_loop` on the awaited event: `some mode` when control
reaches `activation_loop(mode)` (`mode` starts as `0`), `none` when the
oneshot-hint branch runs `hint_mode()` and executes `continue`. -/
def main_loop_select (M : Modes) (P : Platform ε W) (cfg : Cfg) (ev : Option ε) : Option Int :=
  if P.input_event_eq ev cfg.activation_key then some M.MODE_NORMAL
  else if P.input_event_eq ev cfg.grid_activation_key then some M.MODE_GRID
  else if P.input_event_eq ev cfg.hint_activation_key then some M.MODE_HINT
  else if P.input_event_eq ev cfg.screen_activation_key then some M.MODE_SCREEN_SELECTION
  else if P.input_event_eq ev cfg.hint_oneshot_key then none
  else some 0

/-- One iteration of the `while (1)` of `main_loop`; `none` when the
`activation_loop` it enters does not return within `fuel` iterations. -/
def main_loop_iter (M : Modes) (P : Platform ε W) (cfg : Cfg) (fuel : Nat)
    (s : State ε W) : Option (State ε W) :=
  let r := input_wait P (activation_events P cfg) s
  match main_loop_select M P cfg r.1 with
  | none => some (hint_mode P r.2).2
  | some mode => activation_loop M P cfg fuel mode r.2

/-- At most `n` iterations of the `while (1)` of `main_loop`, one after the
other; `none` when an `activation_loop` entered on the way does not return
within `fuel` iterations. -/
def main_loop_iters (M : Modes) (P : Platform ε W) (cfg : Cfg) (fuel : Nat) :
    Nat → State ε W → Option (State ε W)
  | 0, s => some s
  | n + 1, s =>
    match main_loop_iter M P cfg fuel s with
    | none => none
    | some s' => main_loop_iters M P cfg fuel n s'

/-! `oneshot_loop` and the prologue of `main_loop` -/

/-- The externals called by the driver prologue: the two initialisers and the
screen query (`screen_height` is the `sh` that `mouse_get_position` followed
by `screen_get_dimensions` delivers). -/
structure Host (W : Type) where
  init_mouse : Act W Unit
  init_hint_mode : Act W Unit
  screen_height : W → Int

/-- The statements that open both `oneshot_loop` and `main_loop`:
`normalize_dimensions(); init_mouse(); init_hint_mode();`, acting on the
global `cfg` and on the program state. -/
def driver_prologue (P : Platform ε W) (H : Host W) (cfg : Cfg) (s : State ε W) :
    Cfg × State ε W :=
  let cfg1 := normalize_dimensions cfg (H.screen_height s.world)
  let s1 := (H.init_mouse.run P s).2
  let s2 := (H.init_hint_mode.run P s1).2
  (cfg1, s2)

/-- `oneshot_loop()`, with the static `oneshot_mode` passed in: the prologue,
then `activation_loop(oneshot_mode)`. -/
def oneshot_loop (M : Modes) (P : Platform ε W) (H : Host W) (cfg : Cfg)
    (oneshot_mode : Int) (fuel : Nat) (s : State ε W) : Option (State ε W) :=
  let p := driver_prologue P H cfg s
  activation_loop M P p.1 fuel oneshot_mode p.2

/-- `main_loop()` cut after `n` iterations of its `while (1)`: the prologue,
then the iterations. -/
def main_loop (M : Modes) (P : Platform ε W) (H : Host W) (cfg : Cfg)
    (fuel n : Nat) (s : State ε W) : Option (State ε W) :=
  let p := driver_prologue P H cfg s
  main_loop_iters M P p.1 fuel n p.2

/-- Modelled from the spec: `start_main_loop`, the host-provided process entry
(platform code, not in this file), "establishes whatever platform event-loop
context each runner needs before invoking the supplied driver callback"; it
hands the program state to the driver and comes back when the driver does. -/
def start_main_loop (driver : State ε W → Option (State ε W)) (s : State ε W) :
    Option (State ε W) :=
  driver s

/-! `lock`, `daemonize` and `main` -/

/-- What the operating system answers to the process being followed: the
results of `open` on the lock file, of `flock`, of the two `fork` calls and of
`open` on the log file. -/
structure Os where
  lock_open : Int
  flock : Int
  fork1 : Int
  fork2 : Int
  log_open : Int
  deriving DecidableEq, Repr

/-- `lock()`: `some v` when it ends the process with `exit(v)`, `none` when it
returns. -/
def lock (os : Os) : Option Int :=
  if os.lock_open = -1 then some 1
  else if os.flock = -1 then some (-1)
  else none

/-- `daemonize()`: `some v` when it ends the process with `exit(v)` (after a
`fork` that answered non-zero, or when the log file cannot be opened), `none`
when it returns. -/
def daemonize (os : Os) : Option Int :=
  if os.fork1 ≠ 0 then some 0
  else if os.fork2 ≠ 0 then some 0
  else if os.log_open < 0 then some (-1)
  else none

/-- The exit status the parent sees for `exit(v)`: the low eight bits of `v`. -/
def exit_status (v : Int) : Int := v % 256

/-- The driver callbacks `main` hands to `start_main_loop`; `oneshot_loop`
carries the value `main` stored in the static `oneshot_mode`. -/
inductive Driver where
  | print_keys_loop
  | oneshot_loop (oneshot_mode : Int)
  | main_loop
  deriving DecidableEq, Repr

/-- The calls `main` makes, in order; `exit v` stands for `exit(v)` and for
`return v` from `main`, and ends the process. -/
inductive Step where
  | print_version
  | parse_cfg
  | lock
  | daemonize
  | start_main_loop (d : Driver)
  | exit (v : Int)
  deriving DecidableEq, Repr

/-- The test `argc > 1 && !strcmp(argv[1], flag)`. -/
def arg1_is (argv : List String) (flag : String) : Bool :=
  argv[1]? == some flag

/-- The part of `main` from `lock()` on.  `main_loop` has no return path, so
nothing follows `start_main_loop(main_loop)`. -/
def main_persistent (os : Os) (foreground_flag : Int) : List Step :=
  Step.lock ::
    match lock os with
    | some v => [Step.exit v]
    | none =>
      if foreground_flag = 0 then
        Step.daemonize ::
          match daemonize os with
          | some v => [Step.exit v]
          | none => [Step.start_main_loop Driver.main_loop]
      else [Step.start_main_loop Driver.main_loop]

/-- `main(argc, argv)` as the sequence of calls it makes (`setvbuf` and the
start-up `printf` left out), given the answers of the operating system. -/
def main (M : Modes) (os : Os) (argv : List String) : List Step :=
  if arg1_is argv "-v" || arg1_is argv "--version" then
    [Step.print_version, Step.exit 0]
  else if arg1_is argv "-l" || arg1_is argv "--list-keys" then
    [Step.start_main_loop Driver.print_keys_loop, Step.exit 0]
  else
    let foreground_flag : Int :=
      if arg1_is argv "-f" || arg1_is argv "--foreground" then 0 + 1 else 0
    Step.parse_cfg ::
      if arg1_is argv "--hint" then
        [Step.start_main_loop (Driver.oneshot_loop M.MODE_HINT), Step.exit 0]
      else if arg1_is argv "--normal" then
        [Step.start_main_loop (Driver.oneshot_loop M.MODE_NORMAL), Step.exit 0]
      else if arg1_is argv "--grid" then
        [Step.start_main_loop (Driver.oneshot_loop M.MODE_GRID), Step.exit 0]
      else main_persistent os foreground_flag

/-- Whether the first argument is `-f` or `--foreground`, the test that sets
`foreground_flag`. -/
def foreground_arg (argv : List String) : Bool :=
  arg1_is argv "-f" || arg1_is argv "--foreground"

/-- Whether `main` reaches `lock()`: the first argument is none of the
version, list-keys and oneshot flags. -/
def persistent_path (argv : List String) : Bool :=
  !(arg1_is argv "-v" || arg1_is argv "--version" || arg1_is argv "-l" ||
    arg1_is argv "--list-keys" || arg1_is argv "--hint" || arg1_is argv "--normal" ||
    arg1_is argv "--grid")

/-- The flags `main` recognises. -/
def recognised_flags : List String :=
  ["-v", "--version", "-l", "--list-keys", "-f", "--foreground", "--hint", "--normal",
   "--grid"]

/-! Concrete instances used to exercise the definitions -/

/-- Mode constants for the examples. -/
def demoModes : Modes where
  MODE_NORMAL := 3
  MODE_HINT := 1
  MODE_GRID := 2
  MODE_SCREEN_SELECTION := 4
  distinct := by decide

/-- A scripted platform: events are key names, the world is the list of
results the event-returning collaborators will deliver, one per call (an
exhausted script delivers no event).  The normal-mode runner toggles the drag
once per call; the hint runner returns `hint_result`. -/
def demoPlatform (hint_result : Int) : Platform String (List (Option String)) where
  input_event_eq := fun ev b => ev == some b
  input_parse_string := fun b => b
  input_wait := fun _ => Act.world List.tail fun w => Act.ret w.head?.join
  normal_mode := fun _ => Act.toggle_drag (Act.world List.tail fun w => Act.ret w.head?.join)
  hint_mode := Act.ret hint_result
  grid_mode := Act.world List.tail fun w => Act.ret w.head?.join
  screen_selection_mode := Act.ret ()
  mouse_down := fun _ w => w
  mouse_up := fun _ w => w

/-- A configuration with pairwise different bindings. -/
def demoCfg : Cfg where
  hint := "h"
  grid := "g"
  screen := "s"
  exit := "q"
  grid_exit := "c"
  activation_key := "A"
  hint_activation_key := "H"
  grid_activation_key := "G"
  hint_oneshot_key := "O"
  screen_activation_key := "S"
  speed := 220
  cursor_size := 7
  grid_size := 4
  grid_border_size := 2

/-- A degenerate configuration: one key bound to everything. -/
def sameKeyCfg : Cfg :=
  { demoCfg with
    hint := "k", grid := "k", screen := "k", exit := "k", grid_exit := "k"
    activation_key := "k", hint_activation_key := "k", grid_activation_key := "k"
    hint_oneshot_key := "k", screen_activation_key := "k" }

/-- A degenerate configuration: grid, screen and exit share a key. -/
def gridKeyCfg : Cfg :=
  { demoCfg with grid := "k", screen := "k", exit := "k" }

/-- A degenerate configuration: screen and exit share a key. -/
def screenKeyCfg : Cfg :=
  { demoCfg with screen := "k", exit := "k" }

/-- A program state with the given script and a held drag left over. -/
def demoState (script : List (Option String)) : State String (List (Option String)) :=
  { dragging := 1, world := script, calls := [], pointer := [] }

/-- A host whose initialisers do nothing and whose screen is 2160 high. -/
def demoHost : Host (List (Option String)) where
  init_mouse := Act.ret ()
  init_hint_mode := Act.ret ()
  screen_height := fun _ => 2160

/-- An operating system that grants everything, seen from the final child. -/
def demoOs : Os where
  lock_open := 3
  flock := 0
  fork1 := 0
  fork2 := 0
  log_open := 4

end Warpd

namespace Warpd

variable {ε W : Type}

/-! Auxiliary facts -/

theorem lnot_of_ne_zero {x : Int} (h : x ≠ 0) : lnot x = 0 := by
  simp [lnot, h]

theorem toggle_drag_dragging (P : Platform ε W) (s : State ε W) :
    (toggle_drag P s).dragging = lnot s.dragging := by
  unfold toggle_drag
  dsimp only
  split <;> rfl

theorem toggle_drag_calls (P : Platform ε W) (s : State ε W) :
    (toggle_drag P s).calls = s.calls := by
  unfold toggle_drag
  dsimp only
  split <;> rfl

theorem exit_path_dragging (P : Platform ε W) (s : State ε W) :
    (exit_path P s).dragging = 0 := by
  unfold exit_path
  split
  · next h => rw [toggle_drag_dragging, lnot_of_ne_zero h]
  · next h => exact not_not.mp h

theorem exit_path_calls (P : Platform ε W) (s : State ε W) :
    (exit_path P s).calls = s.calls := by
  unfold exit_path
  split
  · exact toggle_drag_calls P s
  · rfl

theorem run_calls {α : Type} (P : Platform ε W) (a : Act W α) (s : State ε W) :
    (a.run P s).2.calls = s.calls := by
  induction a generalizing s with
  | ret a => rfl
  | toggle_drag k ih => simp only [Act.run]; rw [ih, toggle_drag_calls]
  | world f k ih => simp only [Act.run]; rw [ih]

/-- A step that returns has gone through the `exit:` label. -/
theorem activation_step_returned_dragging (M : Modes) (P : Platform ε W) (cfg : Cfg)
    (mode : Int) (ev : Option ε) (s s' : State ε W)
    (h : activation_step M P cfg mode ev s = Outcome.returned s') : s'.dragging = 0 := by
  unfold activation_step at h
  dsimp only at h
  split_ifs at h <;> (injection h with h; rw [← h]; exact exit_path_dragging P _)

theorem activation_iter_returned_dragging (M : Modes) (P : Platform ε W) (cfg : Cfg)
    (n : Nat) (o : Outcome ε W) (s' : State ε W)
    (h : activation_iter M P cfg n o = Outcome.returned s') :
    o = Outcome.returned s' ∨ s'.dragging = 0 := by
  induction n generalizing o with
  | zero => exact Or.inl h
  | succ n ih =>
    cases o with
    | returned s => exact Or.inl h
    | running mode ev s =>
      right
      simp only [activation_iter] at h
      rcases ih _ h with h1 | h1
      · exact activation_step_returned_dragging M P cfg mode ev s s' h1
      · exact h1

theorem Modes.hint_ne_normal (M : Modes) : M.MODE_HINT ≠ M.MODE_NORMAL := by
  have h := M.distinct
  simp only [List.nodup_cons, List.mem_cons] at h
  intro e
  exact h.1 (Or.inl e.symm)

theorem Modes.grid_ne_normal (M : Modes) : M.MODE_GRID ≠ M.MODE_NORMAL := by
  have h := M.distinct
  simp only [List.nodup_cons, List.mem_cons] at h
  intro e
  exact h.1 (Or.inr (Or.inl e.symm))

theorem Modes.grid_ne_hint (M : Modes) : M.MODE_GRID ≠ M.MODE_HINT := by
  have h := M.distinct
  simp only [List.nodup_cons, List.mem_cons] at h
  intro e
  exact h.2.1 (Or.inl e.symm)

theorem Modes.screen_ne_normal (M : Modes) : M.MODE_SCREEN_SELECTION ≠ M.MODE_NORMAL := by
  have h := M.distinct
  simp only [List.nodup_cons, List.mem_cons] at h
  intro e
  exact h.1 (Or.inr (Or.inr (Or.inl e.symm)))

theorem Modes.screen_ne_hint (M : Modes) : M.MODE_SCREEN_SELECTION ≠ M.MODE_HINT := by
  have h := M.distinct
  simp only [List.nodup_cons, List.mem_cons] at h
  intro e
  exact h.2.1 (Or.inr (Or.inl e.symm))

theorem Modes.screen_ne_grid (M : Modes) : M.MODE_SCREEN_SELECTION ≠ M.MODE_GRID := by
  have h := M.distinct
  simp only [List.nodup_cons, List.mem_cons] at h
  intro e
  exact h.2.2.1 (Or.inl e.symm)

theorem normal_mode_calls (P : Platform ε W) (ev : Option ε) (s : State ε W) :
    (normal_mode P ev s).2.calls = s.calls ++ [Call.normal_mode ev] := by
  unfold normal_mode
  rw [run_calls]
  rfl

theorem hint_mode_calls (P : Platform ε W) (s : State ε W) :
    (hint_mode P s).2.calls = s.calls ++ [Call.hint_mode] := by
  unfold hint_mode
  rw [run_calls]
  rfl

theorem grid_mode_calls (P : Platform ε W) (s : State ε W) :
    (grid_mode P s).2.calls = s.calls ++ [Call.grid_mode] := by
  unfold grid_mode
  rw [run_calls]
  rfl

theorem screen_selection_mode_calls (P : Platform ε W) (s : State ε W) :
    (screen_selection_mode P s).calls = s.calls ++ [Call.screen_selection_mode] := by
  unfold screen_selection_mode
  rw [run_calls]
  rfl

/-- The switch arm taken in mode `MODE_NORMAL`. -/
theorem activation_step_normal (M : Modes) (P : Platform ε W) (cfg : Cfg)
    (ev : Option ε) (s : State ε W) :
    activation_step M P cfg M.MODE_NORMAL ev s =
      if P.input_event_eq (normal_mode P ev s).1 cfg.hint then
        Outcome.running M.MODE_HINT (normal_mode P ev s).1 (normal_mode P ev s).2
      else if P.input_event_eq (normal_mode P ev s).1 cfg.grid then
        Outcome.running M.MODE_GRID (normal_mode P ev s).1 (normal_mode P ev s).2
      else if P.input_event_eq (normal_mode P ev s).1 cfg.screen then
        Outcome.running M.MODE_SCREEN_SELECTION (normal_mode P ev s).1 (normal_mode P ev s).2
      else if P.input_event_eq (normal_mode P ev s).1 cfg.exit
          || (normal_mode P ev s).1.isNone then
        Outcome.returned (exit_path P (normal_mode P ev s).2)
      else Outcome.running M.MODE_NORMAL (normal_mode P ev s).1 (normal_mode P ev s).2 := by
  unfold activation_step
  rw [if_pos rfl]

/-- The switch arm taken in mode `MODE_HINT`. -/
theorem activation_step_hint (M : Modes) (P : Platform ε W) (cfg : Cfg)
    (ev : Option ε) (s : State ε W) :
    activation_step M P cfg M.MODE_HINT ev s =
      if (hint_mode P s).1 < 0 then Outcome.returned (exit_path P (hint_mode P s).2)
      else Outcome.running M.MODE_NORMAL none (hint_mode P s).2 := by
  unfold activation_step
  rw [if_neg M.hint_ne_normal, if_pos rfl]

/-- The switch arm taken in mode `MODE_GRID`. -/
theorem activation_step_grid (M : Modes) (P : Platform ε W) (cfg : Cfg)
    (ev : Option ε) (s : State ε W) :
    activation_step M P cfg M.MODE_GRID ev s =
      Outcome.running M.MODE_NORMAL
        (if P.input_event_eq (grid_mode P s).1 cfg.grid_exit then none else (grid_mode P s).1)
        (grid_mode P s).2 := by
  unfold activation_step
  rw [if_neg M.grid_ne_normal, if_neg M.grid_ne_hint, if_pos rfl]

/-- The switch arm taken in mode `MODE_SCREEN_SELECTION`. -/
theorem activation_step_screen (M : Modes) (P : Platform ε W) (cfg : Cfg)
    (ev : Option ε) (s : State ε W) :
    activation_step M P cfg M.MODE_SCREEN_SELECTION ev s =
      Outcome.running M.MODE_NORMAL ev (screen_selection_mode P s) := by
  unfold activation_step
  rw [if_neg M.screen_ne_normal, if_neg M.screen_ne_hint, if_neg M.screen_ne_grid, if_pos rfl]

/-- A Normal step makes exactly one collaborator call: `normal_mode(ev)`. -/
theorem activation_step_normal_calls (M : Modes) (P : Platform ε W) (cfg : Cfg)
    (ev : Option ε) (s : State ε W) :
    (activation_step M P cfg M.MODE_NORMAL ev s).state.calls =
      s.calls ++ [Call.normal_mode ev] := by
  unfold activation_step
  rw [if_pos rfl]
  dsimp only
  split_ifs <;> simp only [Outcome.state, exit_path_calls, normal_mode_calls]

theorem activation_iter_returned (M : Modes) (P : Platform ε W) (cfg : Cfg)
    (n : Nat) (s : State ε W) :
    activation_iter M P cfg n (Outcome.returned s) = Outcome.returned s := by
  cases n <;> rfl

theorem activation_iter_succ_running (M : Modes) (P : Platform ε W) (cfg : Cfg)
    (n : Nat) (mode : Int) (ev : Option ε) (s : State ε W) :
    activation_iter M P cfg (n + 1) (Outcome.running mode ev s) =
      activation_iter M P cfg n (activation_step M P cfg mode ev s) := rfl

theorem activation_step_calls_extend (M : Modes) (P : Platform ε W) (cfg : Cfg)
    (mode : Int) (ev : Option ε) (s : State ε W) :
    s.calls <+: (activation_step M P cfg mode ev s).state.calls := by
  unfold activation_step
  dsimp only
  split_ifs <;>
    simp only [Outcome.state, exit_path_calls, normal_mode_calls, hint_mode_calls,
      grid_mode_calls, screen_selection_mode_calls, List.prefix_append, List.prefix_refl]

theorem activation_iter_calls_extend (M : Modes) (P : Platform ε W) (cfg : Cfg)
    (n : Nat) (o : Outcome ε W) :
    o.state.calls <+: (activation_iter M P cfg n o).state.calls := by
  induction n generalizing o with
  | zero => exact List.prefix_refl _
  | succ n ih =>
    cases o with
    | returned s => exact List.prefix_refl _
    | running mode ev s =>
      rw [activation_iter_succ_running]
      exact (activation_step_calls_extend M P cfg mode ev s).trans (ih _)

theorem activation_iter_add (M : Modes) (P : Platform ε W) (cfg : Cfg)
    (m n : Nat) (o : Outcome ε W) :
    activation_iter M P cfg (m + n) o =
      activation_iter M P cfg n (activation_iter M P cfg m o) := by
  induction m generalizing o with
  | zero => simp [activation_iter]
  | succ m ih =>
    cases o with
    | returned s => simp [activation_iter_returned]
    | running mode ev s =>
      rw [Nat.add_right_comm, activation_iter_succ_running, activation_iter_succ_running, ih]

/-! The claims -/

/-- C1: whenever `activation_loop` returns, whatever the initial mode, the
configuration, the program state it was entered in and the behaviour of the
collaborators (which may call `toggle_drag` any number of times), the drag
state is released (`dragging = 0`). -/
theorem activation_loop_drag_released (M : Modes) (P : Platform ε W) (cfg : Cfg)
    (fuel : Nat) (mode : Int) (s s' : State ε W)
    (h : activation_loop M P cfg fuel mode s = some s') : s'.dragging = 0 := by
  unfold activation_loop at h
  split at h
  · next sf hs =>
    injection h with h
    subst h
    rcases activation_iter_returned_dragging M P cfg fuel _ _ hs with h1 | h1
    · exact absurd h1 (by simp [activation_init])
    · exact h1
  · exact absurd h (by simp)

/-- Witness for C1: the normal runner presses the drag and meets the exit key;
the loop returns with the drag released. -/
theorem activation_loop_drag_released_witness :
    activation_loop demoModes (demoPlatform 0) demoCfg 1 3 (demoState [some "q"]) =
        some { dragging := 0, world := [], calls := [Call.normal_mode none],
               pointer := [Pointer.mouse_down 1, Pointer.mouse_up 1] } ∧
      (State.mk 0 ([] : List (Option String)) [Call.normal_mode (none : Option String)]
        [Pointer.mouse_down 1, Pointer.mouse_up 1]).dragging = 0 :=
  ⟨by decide, activation_loop_drag_released demoModes (demoPlatform 0) demoCfg 1 3
    (demoState [some "q"]) _ (by decide)⟩

/-- C2: in a Normal step the event returned by the normal runner is matched
in the order hint, grid, screen, exit, first match winning: an event equal to
the hint binding leads to Hint whatever else it equals (so an event equal to
both hint and exit does not exit); failing hint, one equal to the grid binding
leads to Grid; failing hint and grid, one equal to the screen binding leads to
ScreenSelection. -/
theorem normal_step_priority (M : Modes) (P : Platform ε W) (cfg : Cfg)
    (ev : Option ε) (s : State ε W) :
    (P.input_event_eq (normal_mode P ev s).1 cfg.hint = true →
      activation_step M P cfg M.MODE_NORMAL ev s =
        Outcome.running M.MODE_HINT (normal_mode P ev s).1 (normal_mode P ev s).2) ∧
    (P.input_event_eq (normal_mode P ev s).1 cfg.hint = false →
      P.input_event_eq (normal_mode P ev s).1 cfg.grid = true →
      activation_step M P cfg M.MODE_NORMAL ev s =
        Outcome.running M.MODE_GRID (normal_mode P ev s).1 (normal_mode P ev s).2) ∧
    (P.input_event_eq (normal_mode P ev s).1 cfg.hint = false →
      P.input_event_eq (normal_mode P ev s).1 cfg.grid = false →
      P.input_event_eq (normal_mode P ev s).1 cfg.screen = true →
      activation_step M P cfg M.MODE_NORMAL ev s =
        Outcome.running M.MODE_SCREEN_SELECTION (normal_mode P ev s).1 (normal_mode P ev s).2) := by
  refine ⟨fun hh => ?_, fun hh hg => ?_, fun hh hg hs => ?_⟩
  · rw [activation_step_normal, if_pos hh]
  · rw [activation_step_normal, if_neg (by simp [hh]), if_pos hg]
  · rw [activation_step_normal, if_neg (by simp [hh]), if_neg (by simp [hg]), if_pos hs]

/-- Witness for C2: a key bound to hint, grid, screen and exit at once enters
Hint; bound to grid, screen and exit it enters Grid; bound to screen and exit
it enters ScreenSelection. -/
theorem normal_step_priority_witness :
    activation_step demoModes (demoPlatform 0) sameKeyCfg 3 none (demoState [some "k"]) =
        Outcome.running 1 (some "k")
          { dragging := 0, world := [], calls := [Call.normal_mode none],
            pointer := [Pointer.mouse_up 1] } ∧
      activation_step demoModes (demoPlatform 0) gridKeyCfg 3 none (demoState [some "k"]) =
        Outcome.running 2 (some "k")
          { dragging := 0, world := [], calls := [Call.normal_mode none],
            pointer := [Pointer.mouse_up 1] } ∧
      activation_step demoModes (demoPlatform 0) screenKeyCfg 3 none (demoState [some "k"]) =
        Outcome.running 4 (some "k")
          { dragging := 0, world := [], calls := [Call.normal_mode none],
            pointer := [Pointer.mouse_up 1] } :=
  ⟨(normal_step_priority demoModes (demoPlatform 0) sameKeyCfg none
      (demoState [some "k"])).1 (by decide),
   (normal_step_priority demoModes (demoPlatform 0) gridKeyCfg none
      (demoState [some "k"])).2.1 (by decide) (by decide),
   (normal_step_priority demoModes (demoPlatform 0) screenKeyCfg none
      (demoState [some "k"])).2.2 (by decide) (by decide) (by decide)⟩

/-- C3: in a Grid step the next mode is Normal; when the grid runner's event
equals the grid_exit binding the following Normal step calls the normal runner
with no event, and when it is an event `e` not equal to grid_exit the following
Normal step calls the normal runner with exactly `e`. -/
theorem grid_step_forwarding (M : Modes) (P : Platform ε W) (cfg : Cfg)
    (ev : Option ε) (s : State ε W) :
    (P.input_event_eq (grid_mode P s).1 cfg.grid_exit = true →
      activation_step M P cfg M.MODE_GRID ev s =
          Outcome.running M.MODE_NORMAL none (grid_mode P s).2 ∧
        (activation_iter M P cfg 2 (Outcome.running M.MODE_GRID ev s)).state.calls =
          s.calls ++ [Call.grid_mode, Call.normal_mode none]) ∧
    (∀ e : ε, (grid_mode P s).1 = some e →
      P.input_event_eq (some e) cfg.grid_exit = false →
      activation_step M P cfg M.MODE_GRID ev s =
          Outcome.running M.MODE_NORMAL (some e) (grid_mode P s).2 ∧
        (activation_iter M P cfg 2 (Outcome.running M.MODE_GRID ev s)).state.calls =
          s.calls ++ [Call.grid_mode, Call.normal_mode (some e)]) := by
  constructor
  · intro h
    have hstep : activation_step M P cfg M.MODE_GRID ev s =
        Outcome.running M.MODE_NORMAL none (grid_mode P s).2 := by
      rw [activation_step_grid, if_pos h]
    refine ⟨hstep, ?_⟩
    rw [activation_iter_succ_running, hstep, activation_iter_succ_running]
    simp only [activation_iter, activation_step_normal_calls, grid_mode_calls,
      List.append_assoc, List.singleton_append]
  · intro e he hne
    have hstep : activation_step M P cfg M.MODE_GRID ev s =
        Outcome.running M.MODE_NORMAL (some e) (grid_mode P s).2 := by
      rw [activation_step_grid, he, if_neg (by simp [hne])]
    refine ⟨hstep, ?_⟩
    rw [activation_iter_succ_running, hstep, activation_iter_succ_running]
    simp only [activation_iter, activation_step_normal_calls, grid_mode_calls,
      List.append_assoc, List.singleton_append]

/-- Witness for C3: the grid runner ending on the grid_exit key `c` hands no
event to the normal runner; ending on another key `z` it hands over `z`. -/
theorem grid_step_forwarding_witness :
    (activation_step demoModes (demoPlatform 0) demoCfg 2 (some "g") (demoState [some "c"]) =
        Outcome.running 3 none
          { dragging := 1, world := [], calls := [Call.grid_mode], pointer := [] } ∧
      (activation_iter demoModes (demoPlatform 0) demoCfg 2
          (Outcome.running 2 (some "g") (demoState [some "c"]))).state.calls =
        [Call.grid_mode, Call.normal_mode none]) ∧
    (activation_step demoModes (demoPlatform 0) demoCfg 2 (some "g") (demoState [some "z"]) =
        Outcome.running 3 (some "z")
          { dragging := 1, world := [], calls := [Call.grid_mode], pointer := [] } ∧
      (activation_iter demoModes (demoPlatform 0) demoCfg 2
          (Outcome.running 2 (some "g") (demoState [some "z"]))).state.calls =
        [Call.grid_mode, Call.normal_mode (some "z")]) :=
  ⟨(grid_step_forwarding demoModes (demoPlatform 0) demoCfg (some "g")
      (demoState [some "c"])).1 (by decide),
   (grid_step_forwarding demoModes (demoPlatform 0) demoCfg (some "g")
      (demoState [some "z"])).2 "z" (by decide) (by decide)⟩

/-- C4: a Hint step whose runner does not return a negative value, and every
ScreenSelection step, does not leave the loop and sets the mode to Normal, so
the next collaborator called is the normal runner; after such a Hint step the
normal runner is called with no event. -/
theorem hint_screen_return_to_normal (M : Modes) (P : Platform ε W) (cfg : Cfg)
    (ev : Option ε) (s : State ε W) :
    (0 ≤ (hint_mode P s).1 →
      activation_step M P cfg M.MODE_HINT ev s =
          Outcome.running M.MODE_NORMAL none (hint_mode P s).2 ∧
        (activation_iter M P cfg 2 (Outcome.running M.MODE_HINT ev s)).state.calls =
          s.calls ++ [Call.hint_mode, Call.normal_mode none]) ∧
    (activation_step M P cfg M.MODE_SCREEN_SELECTION ev s =
          Outcome.running M.MODE_NORMAL ev (screen_selection_mode P s) ∧
        (activation_iter M P cfg 2
            (Outcome.running M.MODE_SCREEN_SELECTION ev s)).state.calls =
          s.calls ++ [Call.screen_selection_mode, Call.normal_mode ev]) := by
  constructor
  · intro h
    have hstep : activation_step M P cfg M.MODE_HINT ev s =
        Outcome.running M.MODE_NORMAL none (hint_mode P s).2 := by
      rw [activation_step_hint, if_neg (not_lt.mpr h)]
    refine ⟨hstep, ?_⟩
    rw [activation_iter_succ_running, hstep, activation_iter_succ_running]
    simp only [activation_iter, activation_step_normal_calls, hint_mode_calls,
      List.append_assoc, List.singleton_append]
  · refine ⟨activation_step_screen M P cfg ev s, ?_⟩
    rw [activation_iter_succ_running, activation_step_screen, activation_iter_succ_running]
    simp only [activation_iter, activation_step_normal_calls, screen_selection_mode_calls,
      List.append_assoc, List.singleton_append]

/-- Witness for C4: a hint runner returning 0 is followed by the normal runner
called with no event. -/
theorem hint_screen_return_to_normal_witness :
    activation_step demoModes (demoPlatform 0) demoCfg 1 (some "h") (demoState []) =
        Outcome.running 3 none
          { dragging := 1, world := [], calls := [Call.hint_mode], pointer := [] } ∧
      (activation_iter demoModes (demoPlatform 0) demoCfg 2
          (Outcome.running 1 (some "h") (demoState []))).state.calls =
        [Call.hint_mode, Call.normal_mode none] :=
  (hint_screen_return_to_normal demoModes (demoPlatform 0) demoCfg (some "h")
    (demoState [])).1 (by decide)

/-- C5: when the hint runner returns a negative value in a Hint step, that
step leaves the loop through the exit label; the loop has returned after this
one iteration whatever fuel remains, and the returned state's call log is the
log before the step plus the single hint call. -/
theorem hint_abnormal_terminates (M : Modes) (P : Platform ε W) (cfg : Cfg)
    (ev : Option ε) (s : State ε W) (h : (hint_mode P s).1 < 0) :
    activation_step M P cfg M.MODE_HINT ev s =
        Outcome.returned (exit_path P (hint_mode P s).2) ∧
      (∀ n, activation_iter M P cfg (n + 1) (Outcome.running M.MODE_HINT ev s) =
        Outcome.returned (exit_path P (hint_mode P s).2)) ∧
      (exit_path P (hint_mode P s).2).calls = s.calls ++ [Call.hint_mode] := by
  have hstep : activation_step M P cfg M.MODE_HINT ev s =
      Outcome.returned (exit_path P (hint_mode P s).2) := by
    rw [activation_step_hint, if_pos h]
  refine ⟨hstep, fun n => ?_, ?_⟩
  · rw [activation_iter_succ_running, hstep, activation_iter_returned]
  · rw [exit_path_calls, hint_mode_calls]

/-- Witness for C5: a hint runner returning -1 ends the loop with the hint
call as the only collaborator call. -/
theorem hint_abnormal_terminates_witness :
    activation_step demoModes (demoPlatform (-1)) demoCfg 1 none (demoState [some "g"]) =
        Outcome.returned (exit_path (demoPlatform (-1))
          (hint_mode (demoPlatform (-1)) (demoState [some "g"])).2) ∧
      (∀ n, activation_iter demoModes (demoPlatform (-1)) demoCfg (n + 1)
          (Outcome.running 1 none (demoState [some "g"])) =
        Outcome.returned (exit_path (demoPlatform (-1))
          (hint_mode (demoPlatform (-1)) (demoState [some "g"])).2)) ∧
      (exit_path (demoPlatform (-1))
          (hint_mode (demoPlatform (-1)) (demoState [some "g"])).2).calls =
        [Call.hint_mode] :=
  hint_abnormal_terminates demoModes (demoPlatform (-1)) demoCfg none
    (demoState [some "g"]) (by decide)

/-- C6 (evaluation of the code): entered in Normal, the normal runner ends on
the screen key `s`; after the ScreenSelection step the normal runner is called
again with that same event `s`, not with no event. -/
theorem screen_selection_keeps_event :
    activation_loop demoModes (demoPlatform 0) demoCfg 3 3 (demoState [some "s", none]) =
      some { dragging := 0, world := [],
             calls := [Call.normal_mode none, Call.screen_selection_mode,
                       Call.normal_mode (some "s")],
             pointer := [Pointer.mouse_down 1, Pointer.mouse_up 1] } := by
  decide

/-- C7: assuming the input-equality test never matches the null event, a
Normal step whose runner returns no event, or an event equal to the exit
binding and to none of hint, grid and screen, leaves the loop at once: the
loop has returned after this iteration and the only collaborator call added is
that normal call.  In particular `activation_loop` entered in Normal with the
first result equal to the exit binding returns having made exactly one
collaborator call, the normal runner with no previous event. -/
theorem normal_exit (M : Modes) (P : Platform ε W) (cfg : Cfg)
    (hnull : ∀ b, P.input_event_eq none b = false) :
    (∀ (ev : Option ε) (s : State ε W),
      ((normal_mode P ev s).1 = none ∨
        (P.input_event_eq (normal_mode P ev s).1 cfg.exit = true ∧
          P.input_event_eq (normal_mode P ev s).1 cfg.hint = false ∧
          P.input_event_eq (normal_mode P ev s).1 cfg.grid = false ∧
          P.input_event_eq (normal_mode P ev s).1 cfg.screen = false)) →
      (∀ n, activation_iter M P cfg (n + 1) (Outcome.running M.MODE_NORMAL ev s) =
        Outcome.returned (exit_path P (normal_mode P ev s).2)) ∧
      (exit_path P (normal_mode P ev s).2).calls = s.calls ++ [Call.normal_mode ev]) ∧
    (∀ s : State ε W,
      P.input_event_eq (normal_mode P none (activation_init M.MODE_NORMAL s).state).1
        cfg.exit = true →
      P.input_event_eq (normal_mode P none (activation_init M.MODE_NORMAL s).state).1
        cfg.hint = false →
      P.input_event_eq (normal_mode P none (activation_init M.MODE_NORMAL s).state).1
        cfg.grid = false →
      P.input_event_eq (normal_mode P none (activation_init M.MODE_NORMAL s).state).1
        cfg.screen = false →
      ∀ fuel, ∃ s', activation_loop M P cfg (fuel + 1) M.MODE_NORMAL s = some s' ∧
        s'.calls = s.calls ++ [Call.normal_mode none]) := by
  have key : ∀ (ev : Option ε) (s : State ε W),
      ((normal_mode P ev s).1 = none ∨
        (P.input_event_eq (normal_mode P ev s).1 cfg.exit = true ∧
          P.input_event_eq (normal_mode P ev s).1 cfg.hint = false ∧
          P.input_event_eq (normal_mode P ev s).1 cfg.grid = false ∧
          P.input_event_eq (normal_mode P ev s).1 cfg.screen = false)) →
      activation_step M P cfg M.MODE_NORMAL ev s =
        Outcome.returned (exit_path P (normal_mode P ev s).2) := by
    intro ev s h
    rw [activation_step_normal]
    rcases h with h | ⟨hx, hh, hg, hs⟩
    · rw [h]
      simp [hnull]
    · rw [if_neg (by simp [hh]), if_neg (by simp [hg]), if_neg (by simp [hs]),
        if_pos (by simp [hx])]
  refine ⟨fun ev s h => ⟨fun n => ?_, ?_⟩, fun s hx hh hg hs fuel => ?_⟩
  · rw [activation_iter_succ_running, key ev s h, activation_iter_returned]
  · rw [exit_path_calls, normal_mode_calls]
  · refine ⟨exit_path P (normal_mode P none (activation_init M.MODE_NORMAL s).state).2, ?_, ?_⟩
    · unfold activation_loop
      have hit : activation_iter M P cfg (fuel + 1) (activation_init M.MODE_NORMAL s) =
          Outcome.returned
            (exit_path P (normal_mode P none (activation_init M.MODE_NORMAL s).state).2) := by
        show activation_iter M P cfg (fuel + 1)
          (Outcome.running M.MODE_NORMAL none (activation_init M.MODE_NORMAL s).state) = _
        rw [activation_iter_succ_running, key _ _ (Or.inr ⟨hx, hh, hg, hs⟩),
          activation_iter_returned]
      rw [hit]
    · rw [exit_path_calls, normal_mode_calls]
      rfl

/-- Witness for C7: on the scripted platform (whose equality test never
matches the null event) a normal runner that aborts, and one that ends on the
exit key `q`, each end the run after that single call. -/
theorem normal_exit_witness :
    (∀ b, (demoPlatform 0).input_event_eq none b = false) ∧
      ((∀ n, activation_iter demoModes (demoPlatform 0) demoCfg (n + 1)
            (Outcome.running 3 (some "z") (demoState [none, some "g"])) =
          Outcome.returned (exit_path (demoPlatform 0)
            (normal_mode (demoPlatform 0) (some "z") (demoState [none, some "g"])).2)) ∧
        (exit_path (demoPlatform 0)
            (normal_mode (demoPlatform 0) (some "z") (demoState [none, some "g"])).2).calls =
          [Call.normal_mode (some "z")]) ∧
      (∀ fuel, ∃ s', activation_loop demoModes (demoPlatform 0) demoCfg (fuel + 1) 3
            (demoState [some "q", some "g"]) = some s' ∧
          s'.calls = [Call.normal_mode none]) :=
  ⟨fun _ => rfl,
   (normal_exit demoModes (demoPlatform 0) demoCfg (fun _ => rfl)).1 (some "z")
      (demoState [none, some "g"]) (Or.inl (by decide)),
   (normal_exit demoModes (demoPlatform 0) demoCfg (fun _ => rfl)).2
      (demoState [some "q", some "g"]) (by decide) (by decide) (by decide) (by decide)⟩

/-- C8: entered in Normal, if the normal runner's first event equals the grid
binding and not the hint binding, and the grid runner then returns an event
equal to the grid_exit binding, the first three iterations call normal(none),
grid(), normal(none), and every longer run starts with these three calls. -/
theorem grid_roundtrip (M : Modes) (P : Platform ε W) (cfg : Cfg) (s : State ε W)
    (hg : P.input_event_eq (normal_mode P none (activation_init M.MODE_NORMAL s).state).1
      cfg.grid = true)
    (hh : P.input_event_eq (normal_mode P none (activation_init M.MODE_NORMAL s).state).1
      cfg.hint = false)
    (hx : P.input_event_eq
      (grid_mode P (normal_mode P none (activation_init M.MODE_NORMAL s).state).2).1
      cfg.grid_exit = true) :
    (activation_iter M P cfg 3 (activation_init M.MODE_NORMAL s)).state.calls =
        s.calls ++ [Call.normal_mode none, Call.grid_mode, Call.normal_mode none] ∧
      ∀ n, 3 ≤ n →
        s.calls ++ [Call.normal_mode none, Call.grid_mode, Call.normal_mode none] <+:
          (activation_iter M P cfg n (activation_init M.MODE_NORMAL s)).state.calls := by
  have h3 : (activation_iter M P cfg 3 (activation_init M.MODE_NORMAL s)).state.calls =
      s.calls ++ [Call.normal_mode none, Call.grid_mode, Call.normal_mode none] := by
    show (activation_iter M P cfg 3
      (Outcome.running M.MODE_NORMAL none (activation_init M.MODE_NORMAL s).state)).state.calls = _
    rw [activation_iter_succ_running, activation_step_normal, if_neg (by simp [hh]),
      if_pos hg, activation_iter_succ_running, activation_step_grid, if_pos hx,
      activation_iter_succ_running]
    simp only [activation_iter, activation_step_normal_calls, grid_mode_calls,
      normal_mode_calls, List.append_assoc, List.singleton_append]
    rfl
  refine ⟨h3, fun n hn => ?_⟩
  obtain ⟨k, rfl⟩ := Nat.exists_eq_add_of_le hn
  rw [activation_iter_add, ← h3]
  exact activation_iter_calls_extend M P cfg k _

/-- Witness for C8: the normal runner ends on the grid key `g`, the grid runner
on the grid_exit key `c`. -/
theorem grid_roundtrip_witness :
    (activation_iter demoModes (demoPlatform 0) demoCfg 3
          (activation_init 3 (demoState [some "g", some "c", some "z"]))).state.calls =
        [Call.normal_mode none, Call.grid_mode, Call.normal_mode none] ∧
      ∀ n, 3 ≤ n →
        [Call.normal_mode none, Call.grid_mode, Call.normal_mode none] <+:
          (activation_iter demoModes (demoPlatform 0) demoCfg n
            (activation_init 3 (demoState [some "g", some "c", some "z"]))).state.calls :=
  grid_roundtrip demoModes (demoPlatform 0) demoCfg (demoState [some "g", some "c", some "z"])
    (by decide) (by decide) (by decide)

/-- C9: `normalize_dimensions` with screen height 1080 leaves speed,
cursor_size, grid_size and grid_border_size (indeed the whole configuration)
unchanged, and with screen height 2160 makes each of the four exactly twice
its old value. -/
theorem normalize_dimensions_reference (cfg : Cfg) :
    normalize_dimensions cfg 1080 = cfg ∧
      (normalize_dimensions cfg 2160).speed = 2 * cfg.speed ∧
      (normalize_dimensions cfg 2160).cursor_size = 2 * cfg.cursor_size ∧
      (normalize_dimensions cfg 2160).grid_size = 2 * cfg.grid_size ∧
      (normalize_dimensions cfg 2160).grid_border_size = 2 * cfg.grid_border_size := by
  have one : ∀ v : Int, (v * 1080).tdiv 1080 = v := fun v =>
    Int.mul_tdiv_cancel v (by decide)
  have two : ∀ v : Int, (v * 2160).tdiv 1080 = 2 * v := fun v => by
    have e : v * 2160 = (2 * v) * 1080 := by ring
    rw [e]
    exact Int.mul_tdiv_cancel _ (by decide)
  refine ⟨?_, two _, two _, two _, two _⟩
  simp only [normalize_dimensions, one]

/-- C10: `main_loop` resolves the awaited event in the order normal, grid,
hint, screen, oneshot-hint, first match winning: an event equal to
activation_key enters `activation_loop` in Normal whatever else it equals;
failing that, one equal to grid_activation_key enters it in Grid (even if it
equals hint_activation_key); failing that, hint_activation_key gives Hint;
failing that, screen_activation_key gives ScreenSelection; failing all four,
hint_oneshot_key selects the oneshot branch. -/
theorem main_loop_resolution (M : Modes) (P : Platform ε W) (cfg : Cfg) (s : State ε W) :
    (P.input_event_eq (input_wait P (activation_events P cfg) s).1 cfg.activation_key = true →
      main_loop_select M P cfg (input_wait P (activation_events P cfg) s).1 =
          some M.MODE_NORMAL ∧
        ∀ fuel, main_loop_iter M P cfg fuel s =
          activation_loop M P cfg fuel M.MODE_NORMAL
            (input_wait P (activation_events P cfg) s).2) ∧
    (P.input_event_eq (input_wait P (activation_events P cfg) s).1 cfg.activation_key = false →
      P.input_event_eq (input_wait P (activation_events P cfg) s).1
        cfg.grid_activation_key = true →
      main_loop_select M P cfg (input_wait P (activation_events P cfg) s).1 =
          some M.MODE_GRID ∧
        ∀ fuel, main_loop_iter M P cfg fuel s =
          activation_loop M P cfg fuel M.MODE_GRID
            (input_wait P (activation_events P cfg) s).2) ∧
    (P.input_event_eq (input_wait P (activation_events P cfg) s).1 cfg.activation_key = false →
      P.input_event_eq (input_wait P (activation_events P cfg) s).1
        cfg.grid_activation_key = false →
      P.input_event_eq (input_wait P (activation_events P cfg) s).1
        cfg.hint_activation_key = true →
      main_loop_select M P cfg (input_wait P (activation_events P cfg) s).1 =
          some M.MODE_HINT ∧
        ∀ fuel, main_loop_iter M P cfg fuel s =
          activation_loop M P cfg fuel M.MODE_HINT
            (input_wait P (activation_events P cfg) s).2) ∧
    (P.input_event_eq (input_wait P (activation_events P cfg) s).1 cfg.activation_key = false →
      P.input_event_eq (input_wait P (activation_events P cfg) s).1
        cfg.grid_activation_key = false →
      P.input_event_eq (input_wait P (activation_events P cfg) s).1
        cfg.hint_activation_key = false →
      P.input_event_eq (input_wait P (activation_events P cfg) s).1
        cfg.screen_activation_key = true →
      main_loop_select M P cfg (input_wait P (activation_events P cfg) s).1 =
          some M.MODE_SCREEN_SELECTION ∧
        ∀ fuel, main_loop_iter M P cfg fuel s =
          activation_loop M P cfg fuel M.MODE_SCREEN_SELECTION
            (input_wait P (activation_events P cfg) s).2) ∧
    (P.input_event_eq (input_wait P (activation_events P cfg) s).1 cfg.activation_key = false →
      P.input_event_eq (input_wait P (activation_events P cfg) s).1
        cfg.grid_activation_key = false →
      P.input_event_eq (input_wait P (activation_events P cfg) s).1
        cfg.hint_activation_key = false →
      P.input_event_eq (input_wait P (activation_events P cfg) s).1
        cfg.screen_activation_key = false →
      P.input_event_eq (input_wait P (activation_events P cfg) s).1
        cfg.hint_oneshot_key = true →
      main_loop_select M P cfg (input_wait P (activation_events P cfg) s).1 = none) := by
  refine ⟨fun h1 => ?_, fun h1 h2 => ?_, fun h1 h2 h3 => ?_, fun h1 h2 h3 h4 => ?_,
    fun h1 h2 h3 h4 h5 => ?_⟩
  · have e : main_loop_select M P cfg (input_wait P (activation_events P cfg) s).1 =
        some M.MODE_NORMAL := by
      simp [main_loop_select, h1]
    exact ⟨e, fun fuel => by simp only [main_loop_iter, e]⟩
  · have e : main_loop_select M P cfg (input_wait P (activation_events P cfg) s).1 =
        some M.MODE_GRID := by
      simp [main_loop_select, h1, h2]
    exact ⟨e, fun fuel => by simp only [main_loop_iter, e]⟩
  · have e : main_loop_select M P cfg (input_wait P (activation_events P cfg) s).1 =
        some M.MODE_HINT := by
      simp [main_loop_select, h1, h2, h3]
    exact ⟨e, fun fuel => by simp only [main_loop_iter, e]⟩
  · have e : main_loop_select M P cfg (input_wait P (activation_events P cfg) s).1 =
        some M.MODE_SCREEN_SELECTION := by
      simp [main_loop_select, h1, h2, h3, h4]
    exact ⟨e, fun fuel => by simp only [main_loop_iter, e]⟩
  · simp [main_loop_select, h1, h2, h3, h4, h5]

/-- Witness for C10: with one key bound to every activation the awaited key
enters Normal; in the plain configuration the keys `G`, `H`, `S` enter Grid,
Hint and ScreenSelection and `O` selects the oneshot branch. -/
theorem main_loop_resolution_witness :
    (main_loop_select demoModes (demoPlatform 0) sameKeyCfg
          (input_wait (demoPlatform 0) (activation_events (demoPlatform 0) sameKeyCfg)
            (demoState [some "k"])).1 = some 3 ∧
        ∀ fuel, main_loop_iter demoModes (demoPlatform 0) sameKeyCfg fuel
            (demoState [some "k"]) =
          activation_loop demoModes (demoPlatform 0) sameKeyCfg fuel 3
            (input_wait (demoPlatform 0) (activation_events (demoPlatform 0) sameKeyCfg)
              (demoState [some "k"])).2) ∧
      (main_loop_select demoModes (demoPlatform 0) demoCfg
          (input_wait (demoPlatform 0) (activation_events (demoPlatform 0) demoCfg)
            (demoState [some "G"])).1 = some 2 ∧
        ∀ fuel, main_loop_iter demoModes (demoPlatform 0) demoCfg fuel
            (demoState [some "G"]) =
          activation_loop demoModes (demoPlatform 0) demoCfg fuel 2
            (input_wait (demoPlatform 0) (activation_events (demoPlatform 0) demoCfg)
              (demoState [some "G"])).2) ∧
      (main_loop_select demoModes (demoPlatform 0) demoCfg
          (input_wait (demoPlatform 0) (activation_events (demoPlatform 0) demoCfg)
            (demoState [some "H"])).1 = some 1 ∧
        ∀ fuel, main_loop_iter demoModes (demoPlatform 0) demoCfg fuel
            (demoState [some "H"]) =
          activation_loop demoModes (demoPlatform 0) demoCfg fuel 1
            (input_wait (demoPlatform 0) (activation_events (demoPlatform 0) demoCfg)
              (demoState [some "H"])).2) ∧
      (main_loop_select demoModes (demoPlatform 0) demoCfg
          (input_wait (demoPlatform 0) (activation_events (demoPlatform 0) demoCfg)
            (demoState [some "S"])).1 = some 4 ∧
        ∀ fuel, main_loop_iter demoModes (demoPlatform 0) demoCfg fuel
            (demoState [some "S"]) =
          activation_loop demoModes (demoPlatform 0) demoCfg fuel 4
            (input_wait (demoPlatform 0) (activation_events (demoPlatform 0) demoCfg)
              (demoState [some "S"])).2) ∧
      main_loop_select demoModes (demoPlatform 0) demoCfg
          (input_wait (demoPlatform 0) (activation_events (demoPlatform 0) demoCfg)
            (demoState [some "O"])).1 = none :=
  ⟨(main_loop_resolution demoModes (demoPlatform 0) sameKeyCfg (demoState [some "k"])).1
      (by decide),
   (main_loop_resolution demoModes (demoPlatform 0) demoCfg (demoState [some "G"])).2.1
      (by decide) (by decide),
   (main_loop_resolution demoModes (demoPlatform 0) demoCfg (demoState [some "H"])).2.2.1
      (by decide) (by decide) (by decide),
   (main_loop_resolution demoModes (demoPlatform 0) demoCfg (demoState [some "S"])).2.2.2.1
      (by decide) (by decide) (by decide) (by decide),
   (main_loop_resolution demoModes (demoPlatform 0) demoCfg (demoState [some "O"])).2.2.2.2
      (by decide) (by decide) (by decide) (by decide) (by decide)⟩

/-! Further auxiliary facts -/

/-- The branches of `main_loop` that reach `activation_loop(mode)`. -/
theorem main_loop_iter_mode (M : Modes) (P : Platform ε W) (cfg : Cfg)
    (fuel : Nat) (s : State ε W) (mode : Int)
    (h : main_loop_select M P cfg (input_wait P (activation_events P cfg) s).1 = some mode) :
    main_loop_iter M P cfg fuel s =
      activation_loop M P cfg fuel mode (input_wait P (activation_events P cfg) s).2 := by
  simp only [main_loop_iter, h]

/-- A mode value that is no `case` label falls through the `switch`. -/
theorem activation_step_other (M : Modes) (P : Platform ε W) (cfg : Cfg)
    (mode : Int) (ev : Option ε) (s : State ε W)
    (hn : mode ≠ M.MODE_NORMAL) (hh : mode ≠ M.MODE_HINT) (hg : mode ≠ M.MODE_GRID)
    (hs : mode ≠ M.MODE_SCREEN_SELECTION) :
    activation_step M P cfg mode ev s = Outcome.running mode ev s := by
  unfold activation_step
  rw [if_neg hn, if_neg hh, if_neg hg, if_neg hs]

/-- C17: in a Normal step, when the normal runner returns an event `e` that
equals none of the hint, grid, screen and exit bindings, the loop stays in the
`while (1)` with mode Normal and the next iteration calls the normal runner
with exactly `e`. -/
theorem normal_step_unmatched (M : Modes) (P : Platform ε W) (cfg : Cfg)
    (ev : Option ε) (s : State ε W) (e : ε)
    (he : (normal_mode P ev s).1 = some e)
    (hh : P.input_event_eq (some e) cfg.hint = false)
    (hg : P.input_event_eq (some e) cfg.grid = false)
    (hs : P.input_event_eq (some e) cfg.screen = false)
    (hx : P.input_event_eq (some e) cfg.exit = false) :
    activation_step M P cfg M.MODE_NORMAL ev s =
        Outcome.running M.MODE_NORMAL (some e) (normal_mode P ev s).2 ∧
      (activation_iter M P cfg 2 (Outcome.running M.MODE_NORMAL ev s)).state.calls =
        s.calls ++ [Call.normal_mode ev, Call.normal_mode (some e)] := by
  have hstep : activation_step M P cfg M.MODE_NORMAL ev s =
      Outcome.running M.MODE_NORMAL (some e) (normal_mode P ev s).2 := by
    rw [activation_step_normal, he, if_neg (by simp [hh]), if_neg (by simp [hg]),
      if_neg (by simp [hs]), if_neg (by simp [hx])]
  refine ⟨hstep, ?_⟩
  rw [activation_iter_succ_running, hstep, activation_iter_succ_running]
  simp only [activation_iter, activation_step_normal_calls, normal_mode_calls,
    List.append_assoc, List.singleton_append]

/-- Witness for C17: the normal runner ends on the unbound key `z`. -/
theorem normal_step_unmatched_witness :
    activation_step demoModes (demoPlatform 0) demoCfg 3 none (demoState [some "z", none]) =
        Outcome.running 3 (some "z")
          (normal_mode (demoPlatform 0) none (demoState [some "z", none])).2 ∧
      (activation_iter demoModes (demoPlatform 0) demoCfg 2
          (Outcome.running 3 none (demoState [some "z", none]))).state.calls =
        [Call.normal_mode none, Call.normal_mode (some "z")] :=
  normal_step_unmatched demoModes (demoPlatform 0) demoCfg none
    (demoState [some "z", none]) "z" (by decide) (by decide) (by decide) (by decide)
    (by decide)

/-- C18: in `main_loop`, when the awaited event equals none of the five
activation bindings, the iteration calls `activation_loop` with the mode value
`0` the local was initialised to; this includes a wait that returns no event,
given that the null event equals no binding. -/
theorem main_loop_unmatched (M : Modes) (P : Platform ε W) (cfg : Cfg) (s : State ε W) :
    (P.input_event_eq (input_wait P (activation_events P cfg) s).1
        cfg.activation_key = false →
      P.input_event_eq (input_wait P (activation_events P cfg) s).1
        cfg.grid_activation_key = false →
      P.input_event_eq (input_wait P (activation_events P cfg) s).1
        cfg.hint_activation_key = false →
      P.input_event_eq (input_wait P (activation_events P cfg) s).1
        cfg.screen_activation_key = false →
      P.input_event_eq (input_wait P (activation_events P cfg) s).1
        cfg.hint_oneshot_key = false →
      main_loop_select M P cfg (input_wait P (activation_events P cfg) s).1 = some 0 ∧
        ∀ fuel, main_loop_iter M P cfg fuel s =
          activation_loop M P cfg fuel 0 (input_wait P (activation_events P cfg) s).2) ∧
    ((∀ b, P.input_event_eq none b = false) →
      (input_wait P (activation_events P cfg) s).1 = none →
      main_loop_select M P cfg (input_wait P (activation_events P cfg) s).1 = some 0 ∧
        ∀ fuel, main_loop_iter M P cfg fuel s =
          activation_loop M P cfg fuel 0 (input_wait P (activation_events P cfg) s).2) := by
  have key : P.input_event_eq (input_wait P (activation_events P cfg) s).1
        cfg.activation_key = false →
      P.input_event_eq (input_wait P (activation_events P cfg) s).1
        cfg.grid_activation_key = false →
      P.input_event_eq (input_wait P (activation_events P cfg) s).1
        cfg.hint_activation_key = false →
      P.input_event_eq (input_wait P (activation_events P cfg) s).1
        cfg.screen_activation_key = false →
      P.input_event_eq (input_wait P (activation_events P cfg) s).1
        cfg.hint_oneshot_key = false →
      main_loop_select M P cfg (input_wait P (activation_events P cfg) s).1 = some 0 ∧
        ∀ fuel, main_loop_iter M P cfg fuel s =
          activation_loop M P cfg fuel 0 (input_wait P (activation_events P cfg) s).2 := by
    intro h1 h2 h3 h4 h5
    have hsel : main_loop_select M P cfg (input_wait P (activation_events P cfg) s).1 =
        some 0 := by
      simp [main_loop_select, h1, h2, h3, h4, h5]
    exact ⟨hsel, fun fuel => main_loop_iter_mode M P cfg fuel s 0 hsel⟩
  refine ⟨key, fun hnull hnone => ?_⟩
  have hb : ∀ b, P.input_event_eq (input_wait P (activation_events P cfg) s).1 b = false := by
    intro b
    rw [hnone]
    exact hnull b
  exact key (hb _) (hb _) (hb _) (hb _) (hb _)

/-- Witness for C18: the wait delivers the unbound key `Z`, and in a second
run no event at all. -/
theorem main_loop_unmatched_witness :
    (main_loop_select demoModes (demoPlatform 0) demoCfg
          (input_wait (demoPlatform 0) (activation_events (demoPlatform 0) demoCfg)
            (demoState [some "Z"])).1 = some 0 ∧
        ∀ fuel, main_loop_iter demoModes (demoPlatform 0) demoCfg fuel
            (demoState [some "Z"]) =
          activation_loop demoModes (demoPlatform 0) demoCfg fuel 0
            (input_wait (demoPlatform 0) (activation_events (demoPlatform 0) demoCfg)
              (demoState [some "Z"])).2) ∧
      (main_loop_select demoModes (demoPlatform 0) demoCfg
          (input_wait (demoPlatform 0) (activation_events (demoPlatform 0) demoCfg)
            (demoState [none])).1 = some 0 ∧
        ∀ fuel, main_loop_iter demoModes (demoPlatform 0) demoCfg fuel (demoState [none]) =
          activation_loop demoModes (demoPlatform 0) demoCfg fuel 0
            (input_wait (demoPlatform 0) (activation_events (demoPlatform 0) demoCfg)
              (demoState [none])).2) :=
  ⟨(main_loop_unmatched demoModes (demoPlatform 0) demoCfg (demoState [some "Z"])).1
      (by decide) (by decide) (by decide) (by decide) (by decide),
   (main_loop_unmatched demoModes (demoPlatform 0) demoCfg (demoState [none])).2
      (fun _ => rfl) (by decide)⟩

/-- C19: for a mode value that is none of the four mode constants, one
iteration of the loop returns to the top of the `while (1)` with the same
mode, event and program state (no collaborator called, drag state untouched,
exit label not reached); so does any number of iterations, and
`activation_loop` entered with such a mode does not return, whatever the fuel. -/
theorem unknown_mode_never_returns (M : Modes) (P : Platform ε W) (cfg : Cfg)
    (mode : Int) (hn : mode ≠ M.MODE_NORMAL) (hh : mode ≠ M.MODE_HINT)
    (hg : mode ≠ M.MODE_GRID) (hs : mode ≠ M.MODE_SCREEN_SELECTION) :
    (∀ (ev : Option ε) (s : State ε W),
      activation_step M P cfg mode ev s = Outcome.running mode ev s) ∧
    (∀ (n : Nat) (ev : Option ε) (s : State ε W),
      activation_iter M P cfg n (Outcome.running mode ev s) = Outcome.running mode ev s) ∧
    (∀ (fuel : Nat) (s : State ε W), activation_loop M P cfg fuel mode s = none) := by
  have hstep : ∀ (ev : Option ε) (s : State ε W),
      activation_step M P cfg mode ev s = Outcome.running mode ev s :=
    fun ev s => activation_step_other M P cfg mode ev s hn hh hg hs
  have hiter : ∀ (n : Nat) (ev : Option ε) (s : State ε W),
      activation_iter M P cfg n (Outcome.running mode ev s) = Outcome.running mode ev s := by
    intro n ev s
    induction n with
    | zero => rfl
    | succ n ih => rw [activation_iter_succ_running, hstep, ih]
  refine ⟨hstep, hiter, fun fuel s => ?_⟩
  unfold activation_loop activation_init
  rw [hiter]

/-- Witness for C19: with the mode constants 3, 1, 2, 4 the value 0 is no
mode. -/
theorem unknown_mode_never_returns_witness :
    (∀ (ev : Option String) (s : State String (List (Option String))),
      activation_step demoModes (demoPlatform 0) demoCfg 0 ev s = Outcome.running 0 ev s) ∧
    (∀ (n : Nat) (ev : Option String) (s : State String (List (Option String))),
      activation_iter demoModes (demoPlatform 0) demoCfg n (Outcome.running 0 ev s) =
        Outcome.running 0 ev s) ∧
    (∀ (fuel : Nat) (s : State String (List (Option String))),
      activation_loop demoModes (demoPlatform 0) demoCfg fuel 0 s = none) :=
  unknown_mode_never_returns demoModes (demoPlatform 0) demoCfg 0
    (by decide) (by decide) (by decide) (by decide)

/-! Facts about `main` -/

theorem arg1_is_unique (argv : List String) (a b : String)
    (ha : arg1_is argv a = true) (hab : a ≠ b) : arg1_is argv b = false := by
  unfold arg1_is at *
  have h : argv[1]? = some a := by simpa using ha
  rw [h]
  simpa using hab

/-- On the persistent path `main` parses the configuration and goes on to
`lock()`. -/
theorem main_of_persistent (M : Modes) (os : Os) (argv : List String)
    (hp : persistent_path argv = true) :
    main M os argv =
      Step.parse_cfg :: main_persistent os (if foreground_arg argv then 1 else 0) := by
  unfold persistent_path at hp
  simp only [Bool.not_eq_true', Bool.or_eq_false_iff] at hp
  obtain ⟨⟨⟨⟨⟨⟨h1, h2⟩, h3⟩, h4⟩, h5⟩, h6⟩, h7⟩ := hp
  simp [main, foreground_arg, h1, h2, h3, h4, h5, h6, h7]

/-- Off the persistent path `main` calls neither `lock` nor `daemonize` and
never starts `main_loop`. -/
theorem main_of_not_persistent (M : Modes) (os : Os) (argv : List String)
    (hp : persistent_path argv = false) :
    Step.lock ∉ main M os argv ∧ Step.daemonize ∉ main M os argv ∧
      Step.start_main_loop Driver.main_loop ∉ main M os argv := by
  unfold main
  by_cases h1 : (arg1_is argv "-v" || arg1_is argv "--version") = true
  · simp [h1]
  by_cases h2 : (arg1_is argv "-l" || arg1_is argv "--list-keys") = true
  · simp [h1, h2]
  by_cases h3 : arg1_is argv "--hint" = true
  · simp [h1, h2, h3]
  by_cases h4 : arg1_is argv "--normal" = true
  · simp [h1, h2, h3, h4]
  by_cases h5 : arg1_is argv "--grid" = true
  · simp [h1, h2, h3, h4, h5]
  · exfalso
    simp only [Bool.or_eq_true, not_or, Bool.not_eq_true] at h1 h2 h3 h4 h5
    simp [persistent_path, h1.1, h1.2, h2.1, h2.2, h3, h4, h5] at hp

/-- C15: the code at the exit label, run with the drag held, emits exactly
one pointer action, a button-up for button 1, and releases the drag; run with
the drag released it changes nothing; entering the loop resets the drag flag
without any pointer action; and a step that leaves the loop returns the state
the last collaborator left, passed through that exit code. -/
theorem exit_path_pointer_actions (M : Modes) (P : Platform ε W) (cfg : Cfg) :
    (∀ s : State ε W, s.dragging ≠ 0 →
      (exit_path P s).pointer = s.pointer ++ [Pointer.mouse_up 1] ∧
        (exit_path P s).dragging = 0) ∧
    (∀ s : State ε W, s.dragging = 0 → exit_path P s = s) ∧
    (∀ (mode : Int) (s : State ε W),
      (activation_init mode s).state.pointer = s.pointer ∧
        (activation_init mode s).state.world = s.world ∧
        (activation_init mode s).state.dragging = 0) ∧
    (∀ (mode : Int) (ev : Option ε) (s s' : State ε W),
      activation_step M P cfg mode ev s = Outcome.returned s' →
      (mode = M.MODE_NORMAL ∧ s' = exit_path P (normal_mode P ev s).2) ∨
        (mode = M.MODE_HINT ∧ s' = exit_path P (hint_mode P s).2)) := by
  refine ⟨fun s h => ⟨?_, exit_path_dragging P s⟩, fun s h => ?_, fun mode s => ⟨rfl, rfl, rfl⟩,
    fun mode ev s s' h => ?_⟩
  · unfold exit_path
    rw [if_pos h]
    unfold toggle_drag
    dsimp only
    rw [if_neg (by simp [lnot_of_ne_zero h])]
    rfl
  · unfold exit_path
    rw [if_neg (by simp [h])]
  · unfold activation_step at h
    dsimp only at h
    split_ifs at h with hm1 _ _ _ _ hm2
    · injection h with h
      exact Or.inl ⟨hm1, h.symm⟩
    · injection h with h
      exact Or.inr ⟨hm2, h.symm⟩

/-- Witness for C15: a held drag at the exit label gives one button-up. -/
theorem exit_path_pointer_actions_witness :
    ((exit_path (demoPlatform 0) (demoState [])).pointer = [Pointer.mouse_up 1] ∧
        (exit_path (demoPlatform 0) (demoState [])).dragging = 0) ∧
      exit_path (demoPlatform 0) { demoState [] with dragging := 0 } =
        { demoState [] with dragging := 0 } ∧
      ((3 : Int) = demoModes.MODE_NORMAL ∧
          State.mk 0 ([] : List (Option String)) [Call.normal_mode (none : Option String)]
              [Pointer.mouse_down 1, Pointer.mouse_up 1] =
            exit_path (demoPlatform 0)
              (normal_mode (demoPlatform 0) none { demoState [some "q"] with dragging := 0 }).2 ∨
        (3 : Int) = demoModes.MODE_HINT ∧
          State.mk 0 ([] : List (Option String)) [Call.normal_mode (none : Option String)]
              [Pointer.mouse_down 1, Pointer.mouse_up 1] =
            exit_path (demoPlatform 0)
              (hint_mode (demoPlatform 0) { demoState [some "q"] with dragging := 0 }).2) :=
  ⟨(exit_path_pointer_actions demoModes (demoPlatform 0) demoCfg).1 (demoState []) (by decide),
   (exit_path_pointer_actions demoModes (demoPlatform 0) demoCfg).2.1
      { demoState [] with dragging := 0 } rfl,
   (exit_path_pointer_actions demoModes (demoPlatform 0) demoCfg).2.2.2 3 none
      { demoState [some "q"] with dragging := 0 } _ (by decide)⟩

/-- C12: with first argument `--hint`, `--normal` or `--grid`, `main` parses
the configuration, runs the oneshot driver with `oneshot_mode` set to
MODE_HINT, MODE_NORMAL or MODE_GRID, and ends with `exit(0)`, status 0,
calling neither `lock` nor `daemonize`; the oneshot driver is its prologue
followed by the single call `activation_loop(oneshot_mode)`; with the first
argument absent or none of the recognised flags, `main` goes on to `lock()`
and, when `lock` and then `daemonize` let it through, starts `main_loop`. -/
theorem main_entry_selection (M : Modes) (os : Os) (argv : List String) :
    (arg1_is argv "--hint" = true →
      main M os argv =
        [Step.parse_cfg, Step.start_main_loop (Driver.oneshot_loop M.MODE_HINT),
          Step.exit 0]) ∧
    (arg1_is argv "--normal" = true →
      main M os argv =
        [Step.parse_cfg, Step.start_main_loop (Driver.oneshot_loop M.MODE_NORMAL),
          Step.exit 0]) ∧
    (arg1_is argv "--grid" = true →
      main M os argv =
        [Step.parse_cfg, Step.start_main_loop (Driver.oneshot_loop M.MODE_GRID),
          Step.exit 0]) ∧
    (arg1_is argv "--hint" = true ∨ arg1_is argv "--normal" = true ∨
        arg1_is argv "--grid" = true →
      Step.lock ∉ main M os argv ∧ Step.daemonize ∉ main M os argv) ∧
    exit_status 0 = 0 ∧
    (∀ (ε W : Type) (P : Platform ε W) (H : Host W) (cfg : Cfg) (mode : Int) (fuel : Nat)
        (s : State ε W),
      start_main_loop (oneshot_loop M P H cfg mode fuel) s =
        activation_loop M P (normalize_dimensions cfg (H.screen_height s.world)) fuel mode
          (H.init_hint_mode.run P (H.init_mouse.run P s).2).2) ∧
    ((argv[1]? = none ∨ ∀ flag ∈ recognised_flags, arg1_is argv flag = false) →
      main M os argv =
        Step.parse_cfg :: Step.lock ::
          match lock os with
          | some v => [Step.exit v]
          | none =>
            Step.daemonize ::
              match daemonize os with
              | some v => [Step.exit v]
              | none => [Step.start_main_loop Driver.main_loop]) := by
  have hhint : arg1_is argv "--hint" = true →
      main M os argv =
        [Step.parse_cfg, Step.start_main_loop (Driver.oneshot_loop M.MODE_HINT),
          Step.exit 0] := by
    intro h
    simp [main, h, arg1_is_unique argv "--hint" "-v" h (by decide),
      arg1_is_unique argv "--hint" "--version" h (by decide),
      arg1_is_unique argv "--hint" "-l" h (by decide),
      arg1_is_unique argv "--hint" "--list-keys" h (by decide)]
  have hnormal : arg1_is argv "--normal" = true →
      main M os argv =
        [Step.parse_cfg, Step.start_main_loop (Driver.oneshot_loop M.MODE_NORMAL),
          Step.exit 0] := by
    intro h
    simp [main, h, arg1_is_unique argv "--normal" "-v" h (by decide),
      arg1_is_unique argv "--normal" "--version" h (by decide),
      arg1_is_unique argv "--normal" "-l" h (by decide),
      arg1_is_unique argv "--normal" "--list-keys" h (by decide),
      arg1_is_unique argv "--normal" "--hint" h (by decide)]
  have hgrid : arg1_is argv "--grid" = true →
      main M os argv =
        [Step.parse_cfg, Step.start_main_loop (Driver.oneshot_loop M.MODE_GRID),
          Step.exit 0] := by
    intro h
    simp [main, h, arg1_is_unique argv "--grid" "-v" h (by decide),
      arg1_is_unique argv "--grid" "--version" h (by decide),
      arg1_is_unique argv "--grid" "-l" h (by decide),
      arg1_is_unique argv "--grid" "--list-keys" h (by decide),
      arg1_is_unique argv "--grid" "--hint" h (by decide),
      arg1_is_unique argv "--grid" "--normal" h (by decide)]
  refine ⟨hhint, hnormal, hgrid, ?_, by decide, fun ε W P H cfg mode fuel s => rfl, ?_⟩
  · rintro (h | h | h)
    · rw [hhint h]; simp
    · rw [hnormal h]; simp
    · rw [hgrid h]; simp
  · intro h
    have hall : ∀ flag ∈ recognised_flags, arg1_is argv flag = false := by
      rcases h with h | h
      · intro flag _
        simp [arg1_is, h]
      · exact h
    have hp : persistent_path argv = true := by
      simp [persistent_path, hall "-v" (by decide), hall "--version" (by decide),
        hall "-l" (by decide), hall "--list-keys" (by decide), hall "--hint" (by decide),
        hall "--normal" (by decide), hall "--grid" (by decide)]
    have hf : foreground_arg argv = false := by
      simp [foreground_arg, hall "-f" (by decide), hall "--foreground" (by decide)]
    rw [main_of_persistent M os argv hp, hf]
    simp only [main_persistent, Bool.false_eq_true, if_false, if_true]

/-- Witness for C12: `warpd --hint`, `warpd --normal`, `warpd --grid`, and
`warpd` without argument on an operating system that grants everything. -/
theorem main_entry_selection_witness :
    main demoModes demoOs ["warpd", "--hint"] =
        [Step.parse_cfg, Step.start_main_loop (Driver.oneshot_loop 1), Step.exit 0] ∧
      main demoModes demoOs ["warpd", "--normal"] =
        [Step.parse_cfg, Step.start_main_loop (Driver.oneshot_loop 3), Step.exit 0] ∧
      main demoModes demoOs ["warpd", "--grid"] =
        [Step.parse_cfg, Step.start_main_loop (Driver.oneshot_loop 2), Step.exit 0] ∧
      (Step.lock ∉ main demoModes demoOs ["warpd", "--grid"] ∧
        Step.daemonize ∉ main demoModes demoOs ["warpd", "--grid"]) ∧
      main demoModes demoOs ["warpd"] =
        [Step.parse_cfg, Step.lock, Step.daemonize, Step.start_main_loop Driver.main_loop] :=
  ⟨(main_entry_selection demoModes demoOs ["warpd", "--hint"]).1 (by decide),
   (main_entry_selection demoModes demoOs ["warpd", "--normal"]).2.1 (by decide),
   (main_entry_selection demoModes demoOs ["warpd", "--grid"]).2.2.1 (by decide),
   (main_entry_selection demoModes demoOs ["warpd", "--grid"]).2.2.2.1
      (Or.inr (Or.inr (by decide))),
   (main_entry_selection demoModes demoOs ["warpd"]).2.2.2.2.2.2 (Or.inl (by decide))⟩

/-- Once `lock()` ends the process, `main_loop` is not started. -/
theorem main_persistent_lock_exit (os : Os) (f v : Int) (h : lock os = some v) :
    main_persistent os f = [Step.lock, Step.exit v] := by
  simp only [main_persistent, h]

/-- C13: `lock()` ends the process with `exit(1)` when opening the lock file
fails and with `exit(-1)` when the non-blocking exclusive lock is refused;
`daemonize()`, in the process that survives both forks, ends it with
`exit(-1)` when the log file cannot be opened; the statuses, 1 and 255, are
non-zero; and whenever `lock` (or `daemonize`, when it is called) ends the
process, `main` never starts `main_loop`: on the persistent path its last
call is that `exit`. -/
theorem fatal_startup_exits (M : Modes) (os : Os) (argv : List String) :
    (os.lock_open = -1 → lock os = some 1 ∧ exit_status 1 ≠ 0) ∧
    (os.lock_open ≠ -1 → os.flock = -1 → lock os = some (-1) ∧ exit_status (-1) ≠ 0) ∧
    (os.fork1 = 0 → os.fork2 = 0 → os.log_open < 0 →
      daemonize os = some (-1) ∧ exit_status (-1) ≠ 0) ∧
    (∀ v, lock os = some v →
      Step.start_main_loop Driver.main_loop ∉ main M os argv ∧
        (persistent_path argv = true →
          main M os argv = [Step.parse_cfg, Step.lock, Step.exit v])) ∧
    (∀ v, daemonize os = some v → foreground_arg argv = false →
      Step.start_main_loop Driver.main_loop ∉ main M os argv ∧
        (persistent_path argv = true → lock os = none →
          main M os argv = [Step.parse_cfg, Step.lock, Step.daemonize, Step.exit v])) := by
  refine ⟨fun h => ⟨?_, by decide⟩, fun h1 h2 => ⟨?_, by decide⟩,
    fun h1 h2 h3 => ⟨?_, by decide⟩, fun v hv => ?_, fun v hv hf => ?_⟩
  · simp [lock, h]
  · simp [lock, h1, h2]
  · simp [daemonize, h1, h2, h3]
  · cases hp : persistent_path argv with
    | false => exact ⟨(main_of_not_persistent M os argv hp).2.2, fun h => absurd h (by simp)⟩
    | true =>
      have hm : main M os argv = [Step.parse_cfg, Step.lock, Step.exit v] := by
        rw [main_of_persistent M os argv hp, main_persistent_lock_exit os _ v hv]
      exact ⟨by rw [hm]; simp, fun _ => hm⟩
  · cases hp : persistent_path argv with
    | false => exact ⟨(main_of_not_persistent M os argv hp).2.2, fun h => absurd h (by simp)⟩
    | true =>
      cases hl : lock os with
      | some w =>
        have hm : main M os argv = [Step.parse_cfg, Step.lock, Step.exit w] := by
          rw [main_of_persistent M os argv hp, main_persistent_lock_exit os _ w hl]
        exact ⟨by rw [hm]; simp, fun _ h => absurd h (by simp)⟩
      | none =>
        have hm : main M os argv =
            [Step.parse_cfg, Step.lock, Step.daemonize, Step.exit v] := by
          rw [main_of_persistent M os argv hp, hf]
          simp [main_persistent, hl, hv]
        exact ⟨by rw [hm]; simp, fun _ _ => hm⟩

/-- Witness for C13: the lock file cannot be opened; the lock is held by
another instance; the log file cannot be opened. -/
theorem fatal_startup_exits_witness :
    (lock { demoOs with lock_open := -1 } = some 1 ∧ exit_status 1 ≠ 0) ∧
      (lock { demoOs with flock := -1 } = some (-1) ∧ exit_status (-1) ≠ 0) ∧
      (daemonize { demoOs with log_open := -1 } = some (-1) ∧ exit_status (-1) ≠ 0) ∧
      (Step.start_main_loop Driver.main_loop ∉
          main demoModes { demoOs with flock := -1 } ["warpd", "-f"] ∧
        (persistent_path ["warpd", "-f"] = true →
          main demoModes { demoOs with flock := -1 } ["warpd", "-f"] =
            [Step.parse_cfg, Step.lock, Step.exit (-1)])) ∧
      (Step.start_main_loop Driver.main_loop ∉
          main demoModes { demoOs with log_open := -1 } ["warpd"] ∧
        (persistent_path ["warpd"] = true → lock { demoOs with log_open := -1 } = none →
          main demoModes { demoOs with log_open := -1 } ["warpd"] =
            [Step.parse_cfg, Step.lock, Step.daemonize, Step.exit (-1)])) :=
  ⟨(fatal_startup_exits demoModes { demoOs with lock_open := -1 } ["warpd"]).1 (by decide),
   (fatal_startup_exits demoModes { demoOs with flock := -1 } ["warpd"]).2.1
      (by decide) (by decide),
   (fatal_startup_exits demoModes { demoOs with log_open := -1 } ["warpd"]).2.2.1
      (by decide) (by decide) (by decide),
   (fatal_startup_exits demoModes { demoOs with flock := -1 } ["warpd", "-f"]).2.2.2.1
      (-1) (by decide),
   (fatal_startup_exits demoModes { demoOs with log_open := -1 } ["warpd"]).2.2.2.2
      (-1) (by decide) (by decide)⟩

end Warpd
